import Mathlib

/-!
Verification development for the osusume anime-recommendation prototypes.

This file gives a shallow embedding, in Lean 4, of the request-to-search-parameter
mapping and query-execution logic of the repository, and proves (or refutes)
the testable properties stated for it.

External effects (the HTTP transport and the language-model calls) are modelled
as explicit inputs: an HTTP round trip is a value of type HttpOutcome describing
what the network returned, and the two LLM-backed helpers used by the taste
expansion are fields of a TasteOracles record.  Everything the repository computes
on top of those inputs is translated function-by-function from the Python source.

Python string operations (lower, upper, strip, split, the in operator, capitalize)
are re-implemented over List Char so that all definitions reduce inside the kernel;
they agree with CPython on the ASCII inputs used throughout the repository.
Python dictionaries holding GraphQL variables are modelled as association lists
in insertion order; Python sets are modelled as duplicate-free lists, which is
faithful because the only consumer of a set in the source immediately applies
sorted(...) to it.
-/

/-! ## Python string semantics over List Char -/

/-- Python s1.startswith-style check on character lists: the first argument is
the pattern, the second the text. -/
def pyStartsWith : List Char → List Char → Bool
  | [], _ => true
  | _ :: _, [] => false
  | a :: as, b :: bs => a == b && pyStartsWith as bs

/-- Python `sub in t` on character lists (substring occurrence test). -/
def pyInChars (sub : List Char) : List Char → Bool
  | [] => pyStartsWith sub []
  | c :: rest => pyStartsWith sub (c :: rest) || pyInChars sub rest

/-- Python `sub in t` for strings: true iff sub occurs contiguously in t. -/
def strIn (sub t : String) : Bool := pyInChars sub.data t.data

/-- Python str.lower (ASCII). -/
def lowerStr (s : String) : String := String.mk (s.data.map Char.toLower)

/-- Python str.upper (ASCII). -/
def upperStr (s : String) : String := String.mk (s.data.map Char.toUpper)

/-- Drop leading whitespace from a character list. -/
def dropLeadingWs : List Char → List Char
  | [] => []
  | c :: cs => if c.isWhitespace then dropLeadingWs cs else c :: cs

/-- Python str.strip(): remove leading and trailing whitespace. -/
def pyStrip (s : String) : String :=
  String.mk ((dropLeadingWs ((dropLeadingWs s.data).reverse)).reverse)

/-- Worker for pySplit; fuel-indexed so that it is structurally recursive and
kernel-reducible.  The fuel is instantiated with the text length, which is
enough because every step consumes at least one character of text. -/
def splitFuel (sep : List Char) : Nat → List Char → List Char → List (List Char)
  | _, [], acc => [acc.reverse]
  | 0, t, acc => [acc.reverse ++ t]
  | fuel + 1, c :: rest, acc =>
    if pyStartsWith sep (c :: rest) then
      acc.reverse :: splitFuel sep fuel ((c :: rest).drop sep.length) []
    else
      splitFuel sep fuel rest (c :: acc)

/-- Python s.split(sep) for a non-empty separator. -/
def pySplit (s sep : String) : List String :=
  (splitFuel sep.data s.data.length s.data []).map String.mk

/-- Python str.capitalize(): first character upper-cased, the rest lower-cased. -/
def pyCapitalize (s : String) : String :=
  match s.data with
  | [] => ""
  | c :: cs => String.mk (c.toUpper :: cs.map Char.toLower)

/-- Python `a or b` on optional strings: an absent or empty first operand
falls through to the second. -/
def pyOr (a b : Option String) : Option String :=
  match a with
  | some s => if s = "" then b else some s
  | none => b

/-- Lexicographic code-point comparison on character lists, matching how
Python compares strings in sorted(...). -/
def charListLe : List Char → List Char → Bool
  | [], _ => true
  | _ :: _, [] => false
  | a :: as, b :: bs =>
    if a.toNat < b.toNat then true
    else if b.toNat < a.toNat then false
    else charListLe as bs

/-- Python string comparison used by sorted(...). -/
def strLe (a b : String) : Bool := charListLe a.data b.data

/-- Ordered insert for the insertion sort modelling Python sorted(...). -/
def insertStr (x : String) : List String → List String
  | [] => [x]
  | y :: ys => if strLe x y then x :: y :: ys else y :: insertStr x ys

/-- Python sorted(...) on lists of strings (insertion sort; the inputs it is
applied to are duplicate-free, so any correct sort yields the same list). -/
def pySorted : List String → List String
  | [] => []
  | x :: xs => insertStr x (pySorted xs)

/-- Python sorted(set(a) | set(b)): the sorted, duplicate-free union of the
elements of the two lists. -/
def pyUnionSorted (a b : List String) : List String := pySorted ((a ++ b).dedup)

/-- Python set.update on a duplicate-free accumulator list: add every element
of the second list that is not already present, in order. -/
def setUnion (acc xs : List String) : List String :=
  xs.foldl (fun s x => if x ∈ s then s else s ++ [x]) acc

/-- Membership-respecting association-list lookup over string keys. -/
def lookupStr : List (String × String) → String → Option String
  | [], _ => none
  | (k, v) :: rest, key => if key = k then some v else lookupStr rest key

/-- First element of the list equal to the key, if any (models a Python
for-loop that returns the first match). -/
def findMatch : List String → String → Option String
  | [], _ => none
  | v :: rest, u => if u = v then some v else findMatch rest u

/-- Whether an Except value is a success (models a Python call returning
instead of raising). -/
def isOkE {α : Type} : Except String α → Bool
  | .ok _ => true
  | .error _ => false

/-! ## JSON values

The AniList API answers with a JSON document; the repository manipulates it as
Python dicts/lists.  The embedding uses a small JSON value type. -/

inductive Json where
  | str (s : String)
  | num (n : Int)
  | bool (b : Bool)
  | null
  | arr (xs : List Json)
  | obj (fields : List (String × Json))

/-- Field lookup in a JSON object field list. -/
def lookupJsonField : List (String × Json) → String → Option Json
  | [], _ => none
  | (k, v) :: rest, key => if key = k then some v else lookupJsonField rest key

/-- Python `key in payload` for a JSON payload that is an object.  The
repository only ever applies it to decoded GraphQL envelopes, which are
objects. -/
def Json.hasKey : Json → String → Bool
  | .obj fields, key => (lookupJsonField fields key).isSome
  | _, _ => false

/-- payload[key] with a JSON-object default of null (used only to carry the
error detail into a message). -/
def Json.getD : Json → String → Json
  | .obj fields, key =>
    match lookupJsonField fields key with
    | some v => v
    | none => .null
  | _, _ => .null

mutual

/-- Rendering of a JSON value into message text.  It stands in for Python
repr/str interpolation in f-strings; the exact punctuation of the rendering is
inessential, what matters is that the underlying detail is embedded in the
message. -/
def Json.render : Json → String
  | .str s => s
  | .num n => toString n
  | .bool b => if b then "True" else "False"
  | .null => "None"
  | .arr xs => "[" ++ Json.renderSeq xs ++ "]"
  | .obj fields => "\x7b" ++ Json.renderFields fields ++ "\x7d"

/-- Comma-separated rendering of a JSON array body. -/
def Json.renderSeq : List Json → String
  | [] => ""
  | [j] => Json.render j
  | j :: rest => Json.render j ++ ", " ++ Json.renderSeq rest

/-- Comma-separated rendering of a JSON object body. -/
def Json.renderFields : List (String × Json) → String
  | [] => ""
  | [(k, v)] => k ++ ": " ++ Json.render v
  | (k, v) :: rest => k ++ ": " ++ Json.render v ++ ", " ++ Json.renderFields rest

end

/-- Python payload[key] as an indexing operation: raises KeyError on a missing
key and TypeError when the value is not an object (e.g. None). -/
def pyIndex (j : Json) (key : String) : Except String Json :=
  match j with
  | .obj fields =>
    match lookupJsonField fields key with
    | some v => .ok v
    | none => .error ("KeyError: " ++ key)
  | _ => .error ("TypeError: value is not subscriptable with key " ++ key)

/-! ## The HTTP boundary

One catalog round trip either fails in transport (requests raises a
RequestException) or yields a response carrying a status code, a raw text body,
and the decoded JSON body. -/

inductive HttpOutcome where
  | transportError (detail : String)
  | response (status : Nat) (text : String) (body : Json)

/-! ## anime_searcher.py — legacy catalog client

fetch_from_anilist posts the query and checks only the status code: a transport
exception is not caught (it propagates to the caller unchanged, modelled as an
error carrying the exception detail), and a 200 response body is returned
as-is, without inspecting it for an embedded errors payload. -/

def fetch_from_anilist (out : HttpOutcome) : Except String Json :=
  match out with
  | .transportError detail => .error detail
  | .response status text body =>
    if status ≠ 200 then
      .error ("Query failed with status code " ++ toString status ++ ". Response: " ++ text)
    else
      .ok body

/-- search_anime then extracts response['data']['Page']['media'] from whatever
fetch_from_anilist returned. -/
def search_anime_result (out : HttpOutcome) : Except String Json :=
  (fetch_from_anilist out).bind fun body =>
    (pyIndex body "data").bind fun d =>
      (pyIndex d "Page").bind fun page =>
        pyIndex page "media"

/-! ## GraphQL variables dictionaries

The variables object sent upstream is a Python dict built key by key; it is
modelled as an association list in insertion order. -/

inductive VarValue where
  | str (s : String)
  | int (n : Int)
  | strList (xs : List String)
  | null
deriving DecidableEq

abbrev Vars := List (String × VarValue)

/-- Dict lookup (variables.get(k)). -/
def lookupVar : Vars → String → Option VarValue
  | [], _ => none
  | (k, v) :: rest, key => if key = k then some v else lookupVar rest key

/-- Whether the dict already holds the key. -/
def hasVarKey (vars : Vars) (k : String) : Bool :=
  vars.any (fun kv => decide (kv.1 = k))

/-- Python dict assignment variables[k] = v: replaces in place when the key
exists (keeping its position), appends otherwise. -/
def dictSet (vars : Vars) (k : String) (v : VarValue) : Vars :=
  if hasVarKey vars k then
    vars.map (fun kv => if kv.1 = k then (k, v) else kv)
  else
    vars ++ [(k, v)]

/-- variables.get(k, []) where the key, when present, holds a list of strings. -/
def getStrList (vars : Vars) (k : String) : List String :=
  match lookupVar vars k with
  | some (.strList xs) => xs
  | _ => []

/-- The dict entry contributed by `if param: variables[k] = param` for an
optional string parameter (Python truthiness: None and "" contribute nothing). -/
def optStrEntry (k : String) (x : Option String) : Vars :=
  match x with
  | some s => if s = "" then [] else [(k, .str s)]
  | none => []

/-- Same for an optional integer parameter (0 is falsy in Python). -/
def optIntEntry (k : String) (x : Option Int) : Vars :=
  match x with
  | some n => if n = 0 then [] else [(k, .int n)]
  | none => []

/-- Same for an optional list parameter ([] is falsy in Python). -/
def optListEntry (k : String) (x : Option (List String)) : Vars :=
  match x with
  | some xs => if xs = [] then [] else [(k, .strList xs)]
  | none => []

/-! ## anime_searcher.py — search_anime variable building

search_anime accepts sort either as a single string or as a list (default
"POPULARITY_DESC") and only includes truthy parameters. -/

inductive SortArg where
  | noSort
  | strSort (s : String)
  | listSort (xs : List String)
deriving DecidableEq

/-- The dict entry contributed by the sort parameter of search_anime: a truthy
string is wrapped in a singleton list, a truthy list is passed through. -/
def sortEntry : SortArg → Vars
  | .noSort => []
  | .strSort s => if s = "" then [] else [("sort", .strList [s])]
  | .listSort xs => if xs = [] then [] else [("sort", .strList xs)]

/-- Arguments of anime_searcher.search_anime with their Python defaults. -/
structure SearchAnimeArgs where
  search_term : Option String := none
  season : Option String := none
  year : Option Int := none
  genre : Option String := none
  genres : Option (List String) := none
  tags : Option (List String) := none
  sort : SortArg := .strSort "POPULARITY_DESC"
  page : Int := 1
  per_page : Int := 20
deriving DecidableEq

/-- The variables dict built by anime_searcher.search_anime, in the source's
insertion order: the six optional filters, then sort, then page and perPage. -/
def search_anime_variables (a : SearchAnimeArgs) : Vars :=
  optStrEntry "search" a.search_term
    ++ optStrEntry "season" a.season
    ++ optIntEntry "seasonYear" a.year
    ++ optStrEntry "genre" a.genre
    ++ optListEntry "genres" a.genres
    ++ optListEntry "tags" a.tags
    ++ sortEntry a.sort
    ++ [("page", .int a.page), ("perPage", .int a.per_page)]

/-! ## recommender.py — the CrewAI search tool

_fetch_from_anilist distinguishes all three failure classes: a caught transport
exception, a non-200 status, and an errors payload inside a 200 response; each
is re-raised as a RuntimeError carrying the underlying detail. -/

def fetchFromAnilistTool (out : HttpOutcome) : Except String Json :=
  match out with
  | .transportError detail =>
    .error ("Network error talking to AniList: " ++ detail)
  | .response status text body =>
    if status ≠ 200 then
      .error ("AniList query failed (HTTP " ++ toString status ++ "): " ++ text)
    else if body.hasKey "errors" then
      .error ("AniList returned errors: " ++ Json.render (body.getD "errors"))
    else
      .ok body

/-- AniList tag record, as selected by the GraphQL query of recommender.py. -/
structure Tag where
  id : Int
  name : String
  rank : Int
  isMediaSpoiler : Bool
deriving DecidableEq

/-- Title variants of a media record. -/
structure MediaTitle where
  romaji : Option String := none
  english : Option String := none
deriving DecidableEq

/-- Anime record, as selected by the GraphQL query of recommender.py. -/
structure Anime where
  id : Int
  title : MediaTitle
  genres : List String
  tags : List Tag
  averageScore : Option Int := none
  episodes : Option Int := none
  format : Option String := none
  status : Option String := none
  seasonYear : Option Int := none
  coverImage : String := ""
deriving DecidableEq

/-- Arguments of the search_anime tool, with the Pydantic defaults of
SearchAnimeToolInput.  The same shape serves as the validated parameter
object, since the schema's validators normalize in place. -/
structure SearchAnimeToolInput where
  search_term : Option String := none
  season : Option String := none
  year : Option Int := none
  genre : Option String := none
  genres : Option (List String) := none
  tags : Option (List String) := none
  sort : Option (List String) := some ["POPULARITY_DESC"]
  page : Int := 1
  per_page : Int := 20
  like_animes : Option String := none
deriving DecidableEq

/-- The _blank_to_none mode="before" validator: a blank or whitespace-only
string becomes None before any other validation runs. -/
def blankToNone : Option String → Option String
  | none => none
  | some v => if pyStrip v = "" then none else some v

/-- Application of _blank_to_none to its four declared fields. -/
def normalizeInput (a : SearchAnimeToolInput) : SearchAnimeToolInput :=
  { a with
    search_term := blankToNone a.search_term
    season := blankToNone a.season
    genre := blankToNone a.genre
    like_animes := blankToNone a.like_animes }

/-- The season field's regex constraint (pattern WINTER, SPRING, SUMMER or FALL
anchored on both sides). -/
def seasonOk : Option String → Bool
  | none => true
  | some s => s == "WINTER" || s == "SPRING" || s == "SUMMER" || s == "FALL"

/-- The year field's range constraint (ge 1960, le 2100). -/
def yearOk : Option Int → Bool
  | none => true
  | some y => decide (1960 ≤ y) && decide (y ≤ 2100)

/-- Field-constraint checks of SearchAnimeToolInput on an already-normalized
input, in field order.  Pydantic aggregates all field errors into one
ValidationError; the embedding reports the first, which is equivalent for
the purposes of validation success or failure. -/
def checkInput (n : SearchAnimeToolInput) : Except String SearchAnimeToolInput :=
  if seasonOk n.season then
    if yearOk n.year then
      if decide (1 ≤ n.page) then
        if decide (1 ≤ n.per_page) && decide (n.per_page ≤ 50) then
          .ok n
        else
          .error "per_page: input should be between 1 and 50"
      else
        .error "page: input should be greater than or equal to 1"
    else
      .error "year: input should be between 1960 and 2100"
  else
    .error "season: string should match the season pattern"

/-- Construction of SearchAnimeToolInput(**kwargs): normalization validators
first, then the declared field constraints. -/
def validateToolInput (a : SearchAnimeToolInput) : Except String SearchAnimeToolInput :=
  checkInput (normalizeInput a)

/-- The two LLM/network-backed helpers the taste expansion calls out to:
searchHits models anilist_query_searcher.search_anime(title) (one catalog
search per seed title) and classify models
analyzer.get_relevant_tags_and_genres(name, genres, tag_names) (one secondary
language-model classification per resolved seed). -/
structure TasteOracles where
  searchHits : String → List Anime
  classify : Option String → List String → List String → List String × List String

/-- One iteration of the _build_taste_profile loop over the comma-separated
seed list: blank seeds and seeds with no catalog hit are skipped, otherwise
the classified genres and tags of the top hit are unioned into the
accumulating sets. -/
def tasteStep (o : TasteOracles) (acc : List String × List String) (raw : String) :
    List String × List String :=
  let title := pyStrip raw
  if title = "" then acc
  else
    match o.searchHits title with
    | [] => acc
    | first :: _ =>
      let name := pyOr first.title.english first.title.romaji
      let gt := o.classify name first.genres (first.tags.map (fun t => t.name))
      (setUnion acc.1 gt.1, setUnion acc.2 gt.2)

/-- SearchAnimeTool._build_taste_profile. -/
def buildTasteProfile (o : TasteOracles) (like_animes : String) :
    List String × List String :=
  (pySplit like_animes ",").foldl (tasteStep o) ([], [])

/-- The sort entry of the tool's variables dict: variables["sort"] is assigned
unconditionally, so an explicit None sort is sent as null. -/
def sortValue : Option (List String) → VarValue
  | some xs => .strList xs
  | none => .null

/-- The variables dict of SearchAnimeTool._run before taste expansion, in the
source's insertion order: page, perPage and sort unconditionally, then each
truthy optional filter. -/
def preVars (p : SearchAnimeToolInput) : Vars :=
  [("page", .int p.page), ("perPage", .int p.per_page), ("sort", sortValue p.sort)]
    ++ optStrEntry "search" p.search_term
    ++ optStrEntry "season" p.season
    ++ optIntEntry "seasonYear" p.year
    ++ optStrEntry "genre" p.genre
    ++ optListEntry "genres" p.genres
    ++ optListEntry "tags" p.tags

/-- The complete variables dict of SearchAnimeTool._run: when like_animes is
truthy, a non-empty taste-genre set replaces variables["genres"] with the
sorted union of the explicit genres and the taste genres, and likewise for
tags. -/
def buildVariables (o : TasteOracles) (p : SearchAnimeToolInput) : Vars :=
  let v := preVars p
  match p.like_animes with
  | none => v
  | some la =>
    if la = "" then v
    else
      let gt := buildTasteProfile o la
      let v1 :=
        if gt.1 = [] then v
        else dictSet v "genres" (.strList (pyUnionSorted (getStrList v "genres") gt.1))
      if gt.2 = [] then v1
      else dictSet v1 "tags" (.strList (pyUnionSorted (getStrList v1 "tags") gt.2))

/-- The query variables a tool invocation sends upstream: argument validation
followed by variable building (validation failure propagates as the tool's
error). -/
def runVariables (o : TasteOracles) (a : SearchAnimeToolInput) : Except String Vars :=
  (validateToolInput a).map (fun p => buildVariables o p)

/-! ## request_parser.py — the extraction schema

AnimeSearchParams declares every field optional with no range constraint; only
the season field is a Literal of the four season names. -/

structure AnimeSearchParams where
  search_term : Option String := none
  season : Option String := none
  year : Option Int := none
  genres : Option (List String) := none
  tags : Option (List String) := none
  sort : Option String := none
  page : Option Int := none
  per_page : Option Int := none
  like_animes : Option String := none
deriving DecidableEq

/-- Construction of AnimeSearchParams(**kwargs): the only value constraint the
schema declares is the season Literal. -/
def validateAnimeSearchParams (a : AnimeSearchParams) : Except String AnimeSearchParams :=
  match a.season with
  | none => .ok a
  | some s =>
    if s == "WINTER" || s == "SPRING" || s == "SUMMER" || s == "FALL" then .ok a
    else .error "season: input should be WINTER, SPRING, SUMMER or FALL"

/-! ## old/anilist_agent.py — sort normalization -/

/-- The sort tokens the AniList API accepts. -/
def VALID_SORT_VALUES : List String :=
  ["POPULARITY_DESC", "POPULARITY",
   "SCORE_DESC", "SCORE",
   "TRENDING_DESC", "TRENDING",
   "UPDATED_AT_DESC", "UPDATED_AT",
   "START_DATE_DESC", "START_DATE",
   "END_DATE_DESC", "END_DATE",
   "FAVORITES_DESC", "FAVORITES",
   "ID_DESC", "ID",
   "TITLE_ROMAJI_DESC", "TITLE_ROMAJI",
   "TITLE_ENGLISH_DESC", "TITLE_ENGLISH",
   "TITLE_NATIVE_DESC", "TITLE_NATIVE",
   "EPISODES_DESC", "EPISODES"]

/-- The fixed lookup table mapping common user sort hints to accepted tokens. -/
def sort_mapping : List (String × String) :=
  [("popularity", "POPULARITY_DESC"),
   ("popular", "POPULARITY_DESC"),
   ("rating", "SCORE_DESC"),
   ("score", "SCORE_DESC"),
   ("highly rated", "SCORE_DESC"),
   ("high rating", "SCORE_DESC"),
   ("trending", "TRENDING_DESC"),
   ("newest", "START_DATE_DESC"),
   ("latest", "START_DATE_DESC"),
   ("recent", "UPDATED_AT_DESC"),
   ("updated", "UPDATED_AT_DESC"),
   ("favorites", "FAVORITES_DESC")]

/-- AnimeSearchTool._normalize_sort restricted to string inputs (a non-string
input is returned unchanged by the source and never reaches the vocabulary
logic): falsy input defaults, then a case-insensitive exact match against the
accepted tokens, then the hint table on the lower-cased input, then the
default. -/
def normalizeSort (sort_value : String) : String :=
  if sort_value = "" then "POPULARITY_DESC"
  else
    match findMatch VALID_SORT_VALUES (upperStr sort_value) with
    | some v => v
    | none =>
      match lookupStr sort_mapping (lowerStr sort_value) with
      | some v => v
      | none => "POPULARITY_DESC"

/-! ## nag.py — similar-anime search and extraction fallback -/

/-- Media record as selected by nag.py's queries (tags are plain names there). -/
structure NagMedia where
  id : Int
  title : MediaTitle
  genres : List String := []
  tags : List String := []
  averageScore : Option Int := none
  popularity : Option Int := none
deriving DecidableEq

/-- The per-record filter of get_similar_anime: a record is kept unless the
lower-cased excluded title occurs in its lower-cased English or romaji title
(a missing title variant is treated as the empty string). -/
def similarKeep (exclude_title : String) (a : NagMedia) : Bool :=
  let title_romaji := lowerStr (a.title.romaji.getD "")
  let title_english := lowerStr (a.title.english.getD "")
  let excl := lowerStr exclude_title
  !(strIn excl title_english || strIn excl title_romaji)

/-- get_similar_anime on the candidate list the API returned (the genres and
tags arguments only shape the upstream query, which requested per_page + 5
records; the local post-processing filters the exclusions and truncates to
per_page). -/
def get_similar_anime (genres tags : List String) (results : List NagMedia)
    (exclude_title : String) (per_page : Nat) : List NagMedia :=
  (results.filter (similarKeep exclude_title)).take per_page

/-- The structured criteria nag.py's interpreter produces: a similar-title
request or a genre request. -/
inductive Criteria where
  | similar (title : String)
  | genre (genre : String)
deriving DecidableEq

/-- The hardcoded genre keywords of the interpretation fallback. -/
def common_genres : List String :=
  ["action", "adventure", "comedy", "drama", "fantasy",
   "horror", "isekai", "romance", "sci-fi", "slice of life"]

/-- The basic fallback parser of interpret_user_request, run when the LLM
interpretation raises: a request containing "like" becomes a similar-title
criterion for the text after the first "like"; otherwise the first hardcoded
genre keyword found in the request becomes a genre criterion; otherwise the
default is the genre criterion "Action". -/
def fallback_interpret (user_request : String) : Criteria :=
  let lower := lowerStr user_request
  (if strIn "like" lower then
    match pySplit lower "like" with
    | _ :: p1 :: _ => some (Criteria.similar (pyStrip p1))
    | _ => none
  else none).getD
    (match common_genres.find? (fun g => strIn g lower) with
     | some g => Criteria.genre (pyCapitalize g)
     | none => Criteria.genre "Action")

/-- The variables dict of get_anime_by_genre_or_tag, the query a genre
criterion executes (genre_in: [$genreOrTag], sort POPULARITY_DESC). -/
def get_anime_by_genre_or_tag_variables (genreOrTag : String) (perPage : Int) : Vars :=
  [("genreOrTag", .str genreOrTag), ("perPage", .int perPage)]

/-! ## service.py — the recommendation output schema -/

/-- RecommendationItem: the terminal pipeline output (image_url is kept as the
validated URL string). -/
structure RecommendationItem where
  title : String
  description : String
  image_url : String
deriving DecidableEq

/-- Serialization of one item to the declared JSON schema. -/
def itemToJson (r : RecommendationItem) : Json :=
  .obj [("title", .str r.title), ("description", .str r.description),
        ("image_url", .str r.image_url)]

/-- Reading one required string field back from a serialized item. -/
def jsonGetStr (j : Json) (k : String) : Option String :=
  match j with
  | .obj fields =>
    match lookupJsonField fields k with
    | some (.str s) => some s
    | _ => none
  | _ => none

/-- Strict re-parsing of one item: all three declared fields must be present
as strings. -/
def itemOfJson (j : Json) : Option RecommendationItem :=
  match jsonGetStr j "title", jsonGetStr j "description", jsonGetStr j "image_url" with
  | some t, some d, some u => some { title := t, description := d, image_url := u }
  | _, _, _ => none

/-- Collecting a list of parses, failing loudly when any element fails. -/
def optionsAll : List (Option RecommendationItem) → Option (List RecommendationItem)
  | [] => some []
  | none :: _ => none
  | some x :: rest => (optionsAll rest).map (fun l => x :: l)

/-- Serialization of a recommendation list to the declared JSON schema. -/
def listToJson (rs : List RecommendationItem) : Json := .arr (rs.map itemToJson)

/-- Strict re-parsing of a serialized recommendation list. -/
def listOfJson (j : Json) : Option (List RecommendationItem) :=
  match j with
  | .arr xs => optionsAll (xs.map itemOfJson)
  | _ => none

/-! ## Concrete instances used to evaluate the development -/

/-- A taste-oracle world in which no seed title resolves to any catalog hit. -/
def oEmpty : TasteOracles :=
  { searchHits := fun _ => [], classify := fun _ g t => (g, t) }

/-- A concrete catalog hit. -/
def demoHit : Anime :=
  { id := 20, title := { romaji := some "NARUTO", english := some "Naruto" },
    genres := ["Action", "Adventure"],
    tags := [{ id := 144, name := "Ninja", rank := 92, isMediaSpoiler := false }],
    averageScore := some 79, episodes := some 220, format := some "TV",
    status := some "FINISHED", seasonYear := some 2002,
    coverImage := "https://img.example/naruto.png" }

/-- A taste-oracle world in which every seed resolves to demoHit and the
classification step selects the genre Action and no tags. -/
def oOneGenre : TasteOracles :=
  { searchHits := fun _ => [demoHit], classify := fun _ _ _ => (["Action"], []) }

/-- A tool invocation with no explicit genres but a seed list. -/
def pSeedOnly : SearchAnimeToolInput := { like_animes := some "Naruto" }

/-- A taste-oracle world whose classification step selects two genres and two
tags. -/
def oTwoGenres : TasteOracles :=
  { searchHits := fun _ => [demoHit],
    classify := fun _ _ _ => (["Action", "Comedy"], ["Dark", "Gore"]) }

/-- A tool invocation with explicit genres and tags plus a seed list. -/
def pExplicit : SearchAnimeToolInput :=
  { genres := some ["Fantasy", "Action"], tags := some ["Dark"],
    like_animes := some "X" }

/-- A tool invocation with several filters and no seed list, used to compare
blank and absent parameters. -/
def pPlain : SearchAnimeToolInput :=
  { search_term := some "titan", year := some 2020, genres := some ["Action"] }

/-- A 200-status GraphQL envelope that embeds an errors payload next to an
empty media page. -/
def c1Body : Json :=
  .obj [("data", .obj [("Page", .obj [("media", .arr [])])]),
        ("errors", .arr [.str "Internal server error"])]

/-- An out-of-range tool input (per_page below 1). -/
def aOutOfRange : SearchAnimeToolInput := { per_page := 0 }

/-- An in-range tool input. -/
def aInRange : SearchAnimeToolInput := { year := some 2024, per_page := 50 }

/-- Extraction-schema parameters with both numeric fields far outside the
bounds the spec claims are enforced. -/
def aspUnbounded : AnimeSearchParams := { year := some 3000, per_page := some 0 }

/-- search_anime arguments with every optional filter absent. -/
def aDefaults : SearchAnimeArgs := {}

/-- A candidate record whose titles contain the seed title. -/
def mediaSeedLike : NagMedia :=
  { id := 1, title := { romaji := some "Naruto: Shippuuden", english := some "Naruto Shippuden" },
    genres := ["Action"], tags := ["Ninja"], averageScore := some 81, popularity := some 100 }

/-- A candidate record unrelated to the seed title. -/
def mediaOther : NagMedia :=
  { id := 2, title := { romaji := some "Hunter x Hunter", english := none },
    genres := ["Action", "Adventure"], tags := ["Ninja"], averageScore := some 88,
    popularity := some 90 }

/-! ## Lemmas about the variables-dictionary model -/

theorem lookupVar_append (a b : Vars) (k : String) :
    lookupVar (a ++ b) k =
      match lookupVar a k with
      | some v => some v
      | none => lookupVar b k := by
  induction a with
  | nil => simp [lookupVar]
  | cons kv rest ih =>
    obtain ⟨k1, v1⟩ := kv
    by_cases h : k = k1 <;> simp [lookupVar, h, ih]

theorem lookupVar_optStrEntry_ne (k k2 : String) (x : Option String) (h : k2 ≠ k) :
    lookupVar (optStrEntry k x) k2 = none := by
  cases x with
  | none => rfl
  | some s => by_cases hs : s = "" <;> simp [optStrEntry, hs, lookupVar, h]

theorem lookupVar_optIntEntry_ne (k k2 : String) (x : Option Int) (h : k2 ≠ k) :
    lookupVar (optIntEntry k x) k2 = none := by
  cases x with
  | none => rfl
  | some n => by_cases hn : n = 0 <;> simp [optIntEntry, hn, lookupVar, h]

theorem lookupVar_optListEntry_ne (k k2 : String) (x : Option (List String)) (h : k2 ≠ k) :
    lookupVar (optListEntry k x) k2 = none := by
  cases x with
  | none => rfl
  | some xs => by_cases hx : xs = [] <;> simp [optListEntry, hx, lookupVar, h]

theorem lookupVar_sortEntry_ne (k2 : String) (x : SortArg) (h : k2 ≠ "sort") :
    lookupVar (sortEntry x) k2 = none := by
  cases x with
  | noSort => rfl
  | strSort s => by_cases hs : s = "" <;> simp [sortEntry, hs, lookupVar, h]
  | listSort xs => by_cases hx : xs = [] <;> simp [sortEntry, hx, lookupVar, h]

theorem lookupVar_mapSet (vars : Vars) (k : String) (v : VarValue)
    (h : hasVarKey vars k = true) :
    lookupVar (vars.map (fun kv => if kv.1 = k then (k, v) else kv)) k = some v := by
  induction vars with
  | nil => simp [hasVarKey] at h
  | cons kv rest ih =>
    obtain ⟨k1, v1⟩ := kv
    rw [List.map_cons]
    by_cases h1 : k1 = k
    · subst h1
      rw [if_pos rfl]
      simp [lookupVar]
    · rw [if_neg h1]
      have h2 : hasVarKey rest k = true := by
        simpa [hasVarKey, h1] using h
      have hk : k ≠ k1 := fun hh => h1 hh.symm
      simp [lookupVar, hk, ih h2]

theorem lookupVar_appendSet (vars : Vars) (k : String) (v : VarValue) :
    lookupVar (vars ++ [(k, v)]) k =
      match lookupVar vars k with
      | some w => some w
      | none => some v := by
  rw [lookupVar_append]
  cases lookupVar vars k <;> simp [lookupVar]

theorem lookupVar_dictSet_self (vars : Vars) (k : String) (v : VarValue)
    (hnone : hasVarKey vars k = true ∨ lookupVar vars k = none) :
    lookupVar (dictSet vars k v) k = some v := by
  unfold dictSet
  by_cases h : hasVarKey vars k = true
  · simp [h, lookupVar_mapSet vars k v h]
  · have hn : lookupVar vars k = none := by
      rcases hnone with h1 | h1
      · exact absurd h1 h
      · exact h1
    simp [h, lookupVar_appendSet, hn]

theorem lookupVar_mapSet_ne (vars : Vars) (k k2 : String) (v : VarValue) (h : k2 ≠ k) :
    lookupVar (vars.map (fun kv => if kv.1 = k then (k, v) else kv)) k2 =
      lookupVar vars k2 := by
  induction vars with
  | nil => rfl
  | cons kv rest ih =>
    obtain ⟨k1, v1⟩ := kv
    rw [List.map_cons]
    by_cases h1 : k1 = k
    · subst h1
      rw [if_pos rfl]
      simp [lookupVar, h, ih]
    · rw [if_neg h1]
      by_cases h2 : k2 = k1 <;> simp [lookupVar, h2, ih]

theorem lookupVar_dictSet_ne (vars : Vars) (k k2 : String) (v : VarValue) (h : k2 ≠ k) :
    lookupVar (dictSet vars k v) k2 = lookupVar vars k2 := by
  unfold dictSet
  by_cases hk : hasVarKey vars k
  · simp [hk, lookupVar_mapSet_ne vars k k2 v h]
  · simp [hk, lookupVar_append, lookupVar, h]
    cases lookupVar vars k2 <;> simp

/-! ## Lemmas about the tool's variables dict -/

theorem optStrEntry_none (k : String) : optStrEntry k none = [] := rfl

theorem optIntEntry_none (k : String) : optIntEntry k none = [] := rfl

theorem optListEntry_none (k : String) : optListEntry k none = [] := rfl

theorem optListEntry_nil (k : String) : optListEntry k (some []) = [] := rfl

theorem lookupVar_optListEntry_self (k : String) (xs : List String) (h : xs ≠ []) :
    lookupVar (optListEntry k (some xs)) k = some (.strList xs) := by
  simp [optListEntry, h, lookupVar]

theorem lookupVar_preVars_search (p : SearchAnimeToolInput) (h : p.search_term = none) :
    lookupVar (preVars p) "search" = none := by
  simp [preVars, lookupVar_append, lookupVar, h, optStrEntry_none,
    lookupVar_optStrEntry_ne, lookupVar_optIntEntry_ne, lookupVar_optListEntry_ne]

theorem lookupVar_preVars_season (p : SearchAnimeToolInput) (h : p.season = none) :
    lookupVar (preVars p) "season" = none := by
  simp [preVars, lookupVar_append, lookupVar, h, optStrEntry_none,
    lookupVar_optStrEntry_ne, lookupVar_optIntEntry_ne, lookupVar_optListEntry_ne]

theorem lookupVar_preVars_year (p : SearchAnimeToolInput) (h : p.year = none) :
    lookupVar (preVars p) "seasonYear" = none := by
  simp [preVars, lookupVar_append, lookupVar, h, optIntEntry_none,
    lookupVar_optStrEntry_ne, lookupVar_optIntEntry_ne, lookupVar_optListEntry_ne]

theorem lookupVar_preVars_genre (p : SearchAnimeToolInput) (h : p.genre = none) :
    lookupVar (preVars p) "genre" = none := by
  simp [preVars, lookupVar_append, lookupVar, h, optStrEntry_none,
    lookupVar_optStrEntry_ne, lookupVar_optIntEntry_ne, lookupVar_optListEntry_ne]

theorem lookupVar_preVars_genres (p : SearchAnimeToolInput) :
    lookupVar (preVars p) "genres" =
      match p.genres with
      | some gs => if gs = [] then none else some (.strList gs)
      | none => none := by
  cases hg : p.genres with
  | none =>
    simp [preVars, lookupVar_append, lookupVar, hg, optListEntry_none,
      lookupVar_optStrEntry_ne, lookupVar_optIntEntry_ne, lookupVar_optListEntry_ne]
  | some gs =>
    by_cases hgs : gs = []
    · subst hgs
      simp [preVars, lookupVar_append, lookupVar, hg, optListEntry_nil,
        lookupVar_optStrEntry_ne, lookupVar_optIntEntry_ne, lookupVar_optListEntry_ne]
    · simp [preVars, lookupVar_append, lookupVar, hg, hgs,
        lookupVar_optListEntry_self _ _ hgs,
        lookupVar_optStrEntry_ne, lookupVar_optIntEntry_ne, lookupVar_optListEntry_ne]

theorem lookupVar_preVars_tags (p : SearchAnimeToolInput) :
    lookupVar (preVars p) "tags" =
      match p.tags with
      | some ts => if ts = [] then none else some (.strList ts)
      | none => none := by
  cases ht : p.tags with
  | none =>
    simp [preVars, lookupVar_append, lookupVar, ht, optListEntry_none,
      lookupVar_optStrEntry_ne, lookupVar_optIntEntry_ne, lookupVar_optListEntry_ne]
  | some ts =>
    by_cases hts : ts = []
    · subst hts
      simp [preVars, lookupVar_append, lookupVar, ht, optListEntry_nil,
        lookupVar_optStrEntry_ne, lookupVar_optIntEntry_ne, lookupVar_optListEntry_ne]
    · simp [preVars, lookupVar_append, lookupVar, ht, hts,
        lookupVar_optListEntry_self _ _ hts,
        lookupVar_optStrEntry_ne, lookupVar_optIntEntry_ne, lookupVar_optListEntry_ne]

theorem getStrList_preVars_genres (p : SearchAnimeToolInput) :
    getStrList (preVars p) "genres" = p.genres.getD [] := by
  rw [getStrList, lookupVar_preVars_genres]
  cases p.genres with
  | none => rfl
  | some gs => by_cases hgs : gs = [] <;> simp [hgs]

theorem getStrList_preVars_tags (p : SearchAnimeToolInput) :
    getStrList (preVars p) "tags" = p.tags.getD [] := by
  rw [getStrList, lookupVar_preVars_tags]
  cases p.tags with
  | none => rfl
  | some ts => by_cases hts : ts = [] <;> simp [hts]

/-! ## Lemmas about the sorted set union -/

theorem insertStr_perm (x : String) (l : List String) :
    List.Perm (insertStr x l) (x :: l) := by
  induction l with
  | nil => exact List.Perm.refl _
  | cons y ys ih =>
    by_cases h : strLe x y
    · simp [insertStr, h]
    · have h2 : strLe x y = false := by simpa using h
      have he : insertStr x (y :: ys) = y :: insertStr x ys := by simp [insertStr, h2]
      rw [he]
      exact (ih.cons y).trans (List.Perm.swap x y ys)

theorem pySorted_perm (l : List String) : List.Perm (pySorted l) l := by
  induction l with
  | nil => exact List.Perm.refl _
  | cons x xs ih =>
    have he : pySorted (x :: xs) = insertStr x (pySorted xs) := rfl
    rw [he]
    exact (insertStr_perm _ _).trans (ih.cons x)

theorem pyUnionSorted_nodup (a b : List String) : (pyUnionSorted a b).Nodup :=
  (pySorted_perm ((a ++ b).dedup)).symm.nodup (List.nodup_dedup _)

theorem pyUnionSorted_mem (a b : List String) (x : String) :
    x ∈ pyUnionSorted a b ↔ x ∈ a ∨ x ∈ b := by
  rw [pyUnionSorted, (pySorted_perm _).mem_iff, List.mem_dedup, List.mem_append]

theorem charListLe_total (x y : List Char) :
    charListLe x y = true ∨ charListLe y x = true := by
  induction x generalizing y with
  | nil => left; rfl
  | cons c cs ih =>
    cases y with
    | nil => right; rfl
    | cons d ds =>
      by_cases h1 : c.toNat < d.toNat
      · left; simp [charListLe, h1]
      · by_cases h2 : d.toNat < c.toNat
        · right; simp [charListLe, h2]
        · rcases ih ds with h | h
          · left; simp [charListLe, h1, h2, h]
          · right; simp [charListLe, h1, h2, h]

theorem strLe_total (a b : String) : strLe a b = true ∨ strLe b a = true :=
  charListLe_total a.data b.data

theorem charListLe_cons_iff (a b : Char) (as bs : List Char) :
    charListLe (a :: as) (b :: bs) = true ↔
      a.toNat < b.toNat ∨ (a.toNat = b.toNat ∧ charListLe as bs = true) := by
  simp only [charListLe]
  split_ifs with h1 h2
  · simp [h1]
  · refine iff_of_false (by simp) ?_
    rintro (h | ⟨h, -⟩) <;> omega
  · have hab : a.toNat = b.toNat := by omega
    simp [h1, hab]

theorem charListLe_trans (x y z : List Char)
    (h1 : charListLe x y = true) (h2 : charListLe y z = true) :
    charListLe x z = true := by
  induction x generalizing y z with
  | nil => rfl
  | cons a as ih =>
    cases y with
    | nil => simp [charListLe] at h1
    | cons b bs =>
      cases z with
      | nil => simp [charListLe] at h2
      | cons c cs =>
        rw [charListLe_cons_iff] at h1 h2 ⊢
        rcases h1 with h1 | ⟨h1e, h1r⟩
        · rcases h2 with h2 | ⟨h2e, h2r⟩
          · left; omega
          · left; omega
        · rcases h2 with h2 | ⟨h2e, h2r⟩
          · left; omega
          · right; exact ⟨by omega, ih bs cs h1r h2r⟩

theorem strLe_trans (a b c : String)
    (h1 : strLe a b = true) (h2 : strLe b c = true) : strLe a c = true :=
  charListLe_trans a.data b.data c.data h1 h2

theorem insertStr_sorted (x : String) (l : List String)
    (h : List.Pairwise (fun a b => strLe a b = true) l) :
    List.Pairwise (fun a b => strLe a b = true) (insertStr x l) := by
  induction l with
  | nil => simp [insertStr]
  | cons y ys ih =>
    rcases List.pairwise_cons.mp h with ⟨hy, hys⟩
    by_cases hxy : strLe x y = true
    · have : insertStr x (y :: ys) = x :: y :: ys := by simp [insertStr, hxy]
      rw [this]
      refine List.pairwise_cons.mpr ⟨?_, h⟩
      intro z hz
      rcases List.mem_cons.mp hz with rfl | hz2
      · exact hxy
      · exact strLe_trans x y z hxy (hy z hz2)
    · have hxy2 : strLe x y = false := by simpa using hxy
      have hyx : strLe y x = true := (strLe_total x y).resolve_left hxy
      have : insertStr x (y :: ys) = y :: insertStr x ys := by simp [insertStr, hxy2]
      rw [this]
      refine List.pairwise_cons.mpr ⟨?_, ih hys⟩
      intro z hz
      have hz3 : z ∈ x :: ys := (insertStr_perm x ys).subset hz
      rcases List.mem_cons.mp hz3 with rfl | hz4
      · exact hyx
      · exact hy z hz4

theorem pySorted_sorted (l : List String) :
    List.Pairwise (fun a b => strLe a b = true) (pySorted l) := by
  induction l with
  | nil => simp [pySorted]
  | cons x xs ih => exact insertStr_sorted x _ ih

theorem pyUnionSorted_sorted (a b : List String) :
    List.Pairwise (fun a b => strLe a b = true) (pyUnionSorted a b) :=
  pySorted_sorted _

/-! ## Lemmas about taste expansion, sort lookup and validation -/

theorem tasteStep_skip (o : TasteOracles) (raw : String)
    (h : pyStrip raw = "" ∨ o.searchHits (pyStrip raw) = []) :
    tasteStep o ([], []) raw = ([], []) := by
  by_cases hb : pyStrip raw = ""
  · simp [tasteStep, hb]
  · rcases h with h | h
    · exact absurd h hb
    · simp [tasteStep, hb, h]

theorem tasteFold_nil (o : TasteOracles) (l : List String)
    (h : ∀ raw ∈ l, pyStrip raw = "" ∨ o.searchHits (pyStrip raw) = []) :
    l.foldl (tasteStep o) ([], []) = ([], []) := by
  induction l with
  | nil => rfl
  | cons x xs ih =>
    rw [List.foldl_cons, tasteStep_skip o x (h x (List.mem_cons_self x xs))]
    exact ih (fun raw hr => h raw (List.mem_cons_of_mem x hr))

theorem buildTasteProfile_nil (o : TasteOracles) (la : String)
    (h : ∀ raw ∈ pySplit la ",", pyStrip raw = "" ∨ o.searchHits (pyStrip raw) = []) :
    buildTasteProfile o la = ([], []) :=
  tasteFold_nil o (pySplit la ",") h

theorem findMatch_some (l : List String) (u v : String) (h : findMatch l u = some v) :
    v = u ∧ v ∈ l := by
  induction l with
  | nil => simp [findMatch] at h
  | cons w ws ih =>
    by_cases hw : u = w
    · rw [findMatch, if_pos hw] at h
      obtain rfl : w = v := by injection h
      exact ⟨hw.symm, List.mem_cons_self _ _⟩
    · rw [findMatch, if_neg hw] at h
      obtain ⟨h1, h2⟩ := ih h
      exact ⟨h1, List.mem_cons_of_mem _ h2⟩

theorem findMatch_of_mem (l : List String) (u : String) (h : u ∈ l) :
    findMatch l u = some u := by
  induction l with
  | nil => simp at h
  | cons w ws ih =>
    by_cases hw : u = w
    · rw [findMatch, if_pos hw, hw]
    · rw [findMatch, if_neg hw]
      exact ih ((List.mem_cons.mp h).resolve_left hw)

theorem findMatch_none (l : List String) (u : String) (h : u ∉ l) :
    findMatch l u = none := by
  induction l with
  | nil => rfl
  | cons w ws ih =>
    have hw : u ≠ w := fun he => h (he ▸ List.mem_cons_self _ _)
    rw [findMatch, if_neg hw]
    exact ih (fun hm => h (List.mem_cons_of_mem _ hm))

theorem lookupStr_mem_snd (table : List (String × String)) (k v : String)
    (h : lookupStr table k = some v) : v ∈ table.map (fun kv => kv.2) := by
  induction table with
  | nil => simp [lookupStr] at h
  | cons kv rest ih =>
    obtain ⟨k1, v1⟩ := kv
    by_cases hk : k = k1
    · rw [lookupStr, if_pos hk] at h
      injection h with h
      subst h
      simp
    · rw [lookupStr, if_neg hk] at h
      simp [ih h]

theorem lookupStr_sort_mapping_mem (k v : String)
    (h : lookupStr sort_mapping k = some v) : v ∈ VALID_SORT_VALUES := by
  have hm := lookupStr_mem_snd sort_mapping k v h
  have hsub : ∀ w ∈ sort_mapping.map (fun kv => kv.2), w ∈ VALID_SORT_VALUES := by decide
  exact hsub v hm

theorem checkInput_ok_iff (n : SearchAnimeToolInput) :
    isOkE (checkInput n) = true ↔
      (seasonOk n.season = true ∧ yearOk n.year = true ∧ 1 ≤ n.page ∧
        1 ≤ n.per_page ∧ n.per_page ≤ 50) := by
  unfold checkInput
  by_cases h1 : seasonOk n.season = true
  · by_cases h2 : yearOk n.year = true
    · by_cases h3 : 1 ≤ n.page
      · by_cases h4 : 1 ≤ n.per_page ∧ n.per_page ≤ 50
        · simp [h1, h2, h3, h4.1, h4.2, isOkE]
        · rcases not_and_or.mp h4 with h5 | h5 <;>
            simp [h1, h2, h3, h5, isOkE]
      · simp [h1, h2, h3, isOkE]
    · simp [h1, h2, isOkE]
  · simp [h1, isOkE]

theorem validateToolInput_ok_iff (a : SearchAnimeToolInput) :
    isOkE (validateToolInput a) = true ↔
      (seasonOk (blankToNone a.season) = true ∧ yearOk a.year = true ∧ 1 ≤ a.page ∧
        1 ≤ a.per_page ∧ a.per_page ≤ 50) := by
  rw [validateToolInput, checkInput_ok_iff]
  rfl

theorem lookupVar_none_of_no_key (vars : Vars) (k : String)
    (h : hasVarKey vars k = false) : lookupVar vars k = none := by
  induction vars with
  | nil => rfl
  | cons kv rest ih =>
    obtain ⟨k1, v1⟩ := kv
    simp only [hasVarKey, List.any_cons, Bool.or_eq_false_iff] at h
    have h1 : ¬ (k1 = k) := by simpa using h.1
    have hk : ¬ (k = k1) := fun he => h1 he.symm
    rw [lookupVar, if_neg hk]
    exact ih h.2

theorem lookupVar_dictSet_found (vars : Vars) (k : String) (v : VarValue) :
    lookupVar (dictSet vars k v) k = some v := by
  apply lookupVar_dictSet_self
  by_cases h : hasVarKey vars k = true
  · exact Or.inl h
  · exact Or.inr (lookupVar_none_of_no_key vars k (by simpa using h))

theorem lookupVar_buildVariables_other (o : TasteOracles) (p : SearchAnimeToolInput)
    (k : String) (h1 : k ≠ "genres") (h2 : k ≠ "tags") :
    lookupVar (buildVariables o p) k = lookupVar (preVars p) k := by
  cases hlk : p.like_animes with
  | none => simp [buildVariables, hlk]
  | some la =>
    by_cases hla : la = ""
    · simp [buildVariables, hlk, hla]
    · rcases hprof : buildTasteProfile o la with ⟨tg, tt⟩
      by_cases htg : tg = [] <;> by_cases htt : tt = [] <;>
        simp [buildVariables, hlk, hla, hprof, htg, htt,
          lookupVar_dictSet_ne _ _ _ _ h1, lookupVar_dictSet_ne _ _ _ _ h2]

theorem lookupVar_buildVariables_no_seeds (o : TasteOracles) (p : SearchAnimeToolInput)
    (k : String) (h : p.like_animes = none) :
    lookupVar (buildVariables o p) k = lookupVar (preVars p) k := by
  simp [buildVariables, h]

/-! ## Claim theorems -/

/-- C8: round-trip of a RecommendationItem list through the declared JSON
schema: serializing any list and re-parsing it yields a structurally identical
list, with title, description and image_url preserved exactly. -/
theorem recommendation_item_roundtrip (rs : List RecommendationItem) :
    listOfJson (listToJson rs) = some rs := by
  induction rs with
  | nil => rfl
  | cons r rest ih =>
    have ih2 : optionsAll ((rest.map itemToJson).map itemOfJson) = some rest := ih
    show optionsAll (((r :: rest).map itemToJson).map itemOfJson) = some (r :: rest)
    rw [List.map_cons, List.map_cons]
    show (optionsAll ((rest.map itemToJson).map itemOfJson)).map (fun l => r :: l) =
      some (r :: rest)
    rw [ih2]
    rfl

/-- C9: for every candidate list and non-empty excluded title, every record
get_similar_anime returns has neither an English nor a romaji title containing
the excluded title case-insensitively, and at most per_page records are
returned. -/
theorem similar_search_excludes_seed (genres tags : List String)
    (results : List NagMedia) (exclude_title : String) (per_page : Nat)
    (hne : exclude_title ≠ "") :
    (∀ a ∈ get_similar_anime genres tags results exclude_title per_page,
        strIn (lowerStr exclude_title) (lowerStr (a.title.english.getD "")) = false ∧
        strIn (lowerStr exclude_title) (lowerStr (a.title.romaji.getD "")) = false) ∧
    (get_similar_anime genres tags results exclude_title per_page).length ≤ per_page := by
  constructor
  · intro a ha
    have ha2 : a ∈ results.filter (similarKeep exclude_title) :=
      List.take_subset _ _ ha
    have hk := (List.mem_filter.mp ha2).2
    simp only [similarKeep] at hk
    simpa using hk
  · exact List.length_take_le _ _

/-- C7: sort normalization is total onto the accepted vocabulary: every string
maps into VALID_SORT_VALUES; a case-insensitive match of a valid token maps to
that token; otherwise a hint in the fixed lookup table maps to its table
entry; otherwise the result is POPULARITY_DESC. -/
theorem normalize_sort_total (s : String) :
    normalizeSort s ∈ VALID_SORT_VALUES ∧
    (upperStr s ∈ VALID_SORT_VALUES → normalizeSort s = upperStr s) ∧
    (upperStr s ∉ VALID_SORT_VALUES →
      ∀ v, lookupStr sort_mapping (lowerStr s) = some v → normalizeSort s = v) ∧
    (upperStr s ∉ VALID_SORT_VALUES →
      lookupStr sort_mapping (lowerStr s) = none →
      normalizeSort s = "POPULARITY_DESC") := by
  refine ⟨?_, ?_, ?_, ?_⟩
  · by_cases hs : s = ""
    · subst hs
      decide
    · simp only [normalizeSort, if_neg hs]
      cases hf : findMatch VALID_SORT_VALUES (upperStr s) with
      | some v =>
        simp only [hf]
        exact (findMatch_some _ _ _ hf).2
      | none =>
        simp only [hf]
        cases hl : lookupStr sort_mapping (lowerStr s) with
        | some v =>
          simp only [hl]
          exact lookupStr_sort_mapping_mem _ _ hl
        | none =>
          simp only [hl]
          decide
  · intro hmem
    have hs : s ≠ "" := by
      intro h
      subst h
      revert hmem
      decide
    simp only [normalizeSort, if_neg hs, findMatch_of_mem _ _ hmem]
  · intro hnm v hl
    have hs : s ≠ "" := by
      intro h
      subst h
      have hnone : lookupStr sort_mapping (lowerStr "") = none := by decide
      rw [hnone] at hl
      exact Option.noConfusion hl
    simp only [normalizeSort, if_neg hs, findMatch_none _ _ hnm, hl]
  · intro hnm hl
    by_cases hs : s = ""
    · subst hs
      rfl
    · simp only [normalizeSort, if_neg hs, findMatch_none _ _ hnm, hl]

/-- C4: when every seed in like_animes resolves to zero catalog hits (or is
blank), the variables the tool builds are identical to those of the same
invocation without like_animes: the unresolved seeds contribute nothing and do
not abort the request. -/
theorem unresolved_seeds_contribute_nothing (o : TasteOracles)
    (p : SearchAnimeToolInput) (la : String)
    (h : ∀ raw ∈ pySplit la ",", pyStrip raw = "" ∨ o.searchHits (pyStrip raw) = []) :
    buildVariables o { p with like_animes := some la } =
      buildVariables o { p with like_animes := none } := by
  by_cases hla : la = ""
  · subst hla
    simp only [buildVariables]
    rfl
  · have hprof : buildTasteProfile o la = ([], []) := buildTasteProfile_nil o la h
    simp only [buildVariables, hla, hprof]
    rfl

/-- C3: nag.py treats a failed extraction as non-fatal, but its fallback is a
keyword heuristic, not an empty filter set: with no "like" keyword and no
common genre keyword in the request the fallback criterion is the genre query
Action, and the query a genre criterion executes always carries a genreOrTag
filter variable. -/
theorem extraction_fallback_heuristic (req : String) :
    (strIn "like" (lowerStr req) = false →
      (∀ g ∈ common_genres, strIn g (lowerStr req) = false) →
      fallback_interpret req = Criteria.genre "Action") ∧
    (∀ g : String, ∀ pp : Int,
      lookupVar (get_anime_by_genre_or_tag_variables g pp) "genreOrTag" =
        some (.str g)) := by
  constructor
  · intro h1 h2
    have hfind : common_genres.find? (fun g => strIn g (lowerStr req)) = none := by
      rw [List.find?_eq_none]
      intro g hg
      simp [h2 g hg]
    simp [fallback_interpret, h1, hfind]
  · intro g pp
    simp [get_anime_by_genre_or_tag_variables, lookupVar]

/-- C1 (amended): the recommender's client surfaces all three failure classes
as errors carrying the underlying detail, while the legacy anime_searcher
client surfaces the transport failure (the uncaught exception propagates) and
the non-2xx status, but returns a 200 body embedding an errors payload
unchanged instead of raising. -/
theorem anilist_fetch_error_classes (detail text : String) (status : Nat) (body : Json) :
    fetchFromAnilistTool (.transportError detail) =
      .error ("Network error talking to AniList: " ++ detail) ∧
    (status ≠ 200 →
      fetchFromAnilistTool (.response status text body) =
        .error ("AniList query failed (HTTP " ++ toString status ++ "): " ++ text)) ∧
    (body.hasKey "errors" = true →
      fetchFromAnilistTool (.response 200 text body) =
        .error ("AniList returned errors: " ++ Json.render (body.getD "errors"))) ∧
    fetch_from_anilist (.transportError detail) = .error detail ∧
    (status ≠ 200 →
      fetch_from_anilist (.response status text body) =
        .error ("Query failed with status code " ++ toString status ++
          ". Response: " ++ text)) ∧
    (body.hasKey "errors" = true →
      fetch_from_anilist (.response 200 text body) = .ok body) := by
  refine ⟨rfl, ?_, ?_, rfl, ?_, fun _ => rfl⟩
  · intro h
    simp [fetchFromAnilistTool, h]
  · intro h
    simp [fetchFromAnilistTool, h]
  · intro h
    simp [fetch_from_anilist, h]

/-- C1 counterexample: on a 200 response embedding an errors payload, the
anime_searcher client does not raise a search-unavailable error: it returns
the payload unchanged, and its search then silently yields the empty media
list. -/
theorem anilist_errors_payload_passthrough_cex :
    Json.hasKey c1Body "errors" = true ∧
    fetch_from_anilist (.response 200 "" c1Body) = .ok c1Body ∧
    search_anime_result (.response 200 "" c1Body) = .ok (Json.arr []) :=
  ⟨rfl, rfl, rfl⟩

/-- C2 (amended): the bounds per_page in [1,50] and year in [1960,2100] are
enforced by the search tool's schema SearchAnimeToolInput — validation fails
outside them and succeeds inside them when the remaining fields are valid —
while the extraction schema AnimeSearchParams declares no bounds and accepts
any integers. -/
theorem schema_bounds_validation :
    (∀ a : SearchAnimeToolInput,
        (a.per_page < 1 ∨ 50 < a.per_page ∨
          (∃ y, a.year = some y ∧ (y < 1960 ∨ 2100 < y))) →
        isOkE (validateToolInput a) = false) ∧
    (∀ a : SearchAnimeToolInput,
        1 ≤ a.per_page → a.per_page ≤ 50 → yearOk a.year = true →
        seasonOk (blankToNone a.season) = true → 1 ≤ a.page →
        isOkE (validateToolInput a) = true) ∧
    (∀ pp y : Int,
        isOkE (validateAnimeSearchParams { year := some y, per_page := some pp }) =
          true) := by
  refine ⟨?_, ?_, ?_⟩
  · intro a h
    by_contra hok
    simp only [Bool.not_eq_false] at hok
    rw [validateToolInput_ok_iff] at hok
    obtain ⟨-, hy, -, hp1, hp2⟩ := hok
    rcases h with h | h | ⟨y, hy2, h⟩
    · omega
    · omega
    · rw [hy2] at hy
      simp only [yearOk, Bool.and_eq_true, decide_eq_true_eq] at hy
      omega
  · intro a h1 h2 h3 h4 h5
    rw [validateToolInput_ok_iff]
    exact ⟨h4, h3, h5, h1, h2⟩
  · intro pp y
    rfl

/-- C2 counterexample: an AnimeSearchParams object with per_page = 0 and
year = 3000 — both outside the claimed bounds — validates successfully, so
constructing the parameter object raises no validation error. -/
theorem anime_search_params_unbounded_cex :
    ((0 : Int) < 1 ∨ 50 < (0 : Int)) ∧
    ((3000 : Int) < 1960 ∨ 2100 < (3000 : Int)) ∧
    isOkE (validateAnimeSearchParams aspUnbounded) = true :=
  ⟨Or.inl (by decide), Or.inr (by decide), rfl⟩

/-- C5 (amended): in the variables dict sent upstream, no key is ever set to a
null parameter value: in the legacy search_anime client each of the six filter
keys is omitted whenever its parameter is absent, and in the search tool the
same holds for search, season, seasonYear and genre unconditionally, and for
genres and tags in the absence of like_animes; a genres or tags key can appear
without its parameter only through taste expansion of a present like_animes. -/
theorem null_params_omitted :
    (∀ a : SearchAnimeArgs,
        (a.search_term = none → lookupVar (search_anime_variables a) "search" = none) ∧
        (a.season = none → lookupVar (search_anime_variables a) "season" = none) ∧
        (a.year = none → lookupVar (search_anime_variables a) "seasonYear" = none) ∧
        (a.genre = none → lookupVar (search_anime_variables a) "genre" = none) ∧
        (a.genres = none → lookupVar (search_anime_variables a) "genres" = none) ∧
        (a.tags = none → lookupVar (search_anime_variables a) "tags" = none)) ∧
    (∀ (o : TasteOracles) (p : SearchAnimeToolInput),
        (p.search_term = none → lookupVar (buildVariables o p) "search" = none) ∧
        (p.season = none → lookupVar (buildVariables o p) "season" = none) ∧
        (p.year = none → lookupVar (buildVariables o p) "seasonYear" = none) ∧
        (p.genre = none → lookupVar (buildVariables o p) "genre" = none) ∧
        (p.like_animes = none → p.genres = none →
          lookupVar (buildVariables o p) "genres" = none) ∧
        (p.like_animes = none → p.tags = none →
          lookupVar (buildVariables o p) "tags" = none) ∧
        (lookupVar (buildVariables o p) "genres" ≠ none →
          p.genres ≠ none ∨ p.like_animes ≠ none) ∧
        (lookupVar (buildVariables o p) "tags" ≠ none →
          p.tags ≠ none ∨ p.like_animes ≠ none)) := by
  constructor
  · intro a
    refine ⟨fun h => ?_, fun h => ?_, fun h => ?_, fun h => ?_, fun h => ?_, fun h => ?_⟩ <;>
      simp [search_anime_variables, lookupVar_append, lookupVar, h,
        optStrEntry_none, optIntEntry_none, optListEntry_none,
        lookupVar_optStrEntry_ne, lookupVar_optIntEntry_ne, lookupVar_optListEntry_ne,
        lookupVar_sortEntry_ne]
  · intro o p
    refine ⟨fun h => ?_, fun h => ?_, fun h => ?_, fun h => ?_,
      fun hl h => ?_, fun hl h => ?_, fun h => ?_, fun h => ?_⟩
    · rw [lookupVar_buildVariables_other o p _ (by decide) (by decide)]
      exact lookupVar_preVars_search p h
    · rw [lookupVar_buildVariables_other o p _ (by decide) (by decide)]
      exact lookupVar_preVars_season p h
    · rw [lookupVar_buildVariables_other o p _ (by decide) (by decide)]
      exact lookupVar_preVars_year p h
    · rw [lookupVar_buildVariables_other o p _ (by decide) (by decide)]
      exact lookupVar_preVars_genre p h
    · rw [lookupVar_buildVariables_no_seeds o p _ hl, lookupVar_preVars_genres, h]
    · rw [lookupVar_buildVariables_no_seeds o p _ hl, lookupVar_preVars_tags, h]
    · by_cases hl : p.like_animes = none
      · left
        intro hg
        exact h (by rw [lookupVar_buildVariables_no_seeds o p _ hl,
          lookupVar_preVars_genres, hg])
      · exact Or.inr hl
    · by_cases hl : p.like_animes = none
      · left
        intro ht
        exact h (by rw [lookupVar_buildVariables_no_seeds o p _ hl,
          lookupVar_preVars_tags, ht])
      · exact Or.inr hl

/-- C5 counterexample: a tool invocation whose genres parameter is null but
whose like_animes seed resolves puts a genres key into the variables dict, so
the dict does not contain that key only when the genres parameter is
present. -/
theorem taste_sets_genres_without_param_cex :
    pSeedOnly.genres = none ∧
    lookupVar (buildVariables oOneGenre pSeedOnly) "genres" =
      some (VarValue.strList ["Action"]) :=
  ⟨rfl, by decide⟩

/-- C6: when taste expansion contributes genres (resp. tags), the genres
(resp. tags) list placed in the variables dict is exactly the sorted union of
the explicitly requested values and the taste-profile values: it is
duplicate-free, its membership is the set union, and it is sorted in
code-point order. -/
theorem taste_union_dedup_sorted (o : TasteOracles) (p : SearchAnimeToolInput)
    (la : String) (tg tt : List String)
    (hla : p.like_animes = some la) (hne : la ≠ "")
    (hprof : buildTasteProfile o la = (tg, tt)) :
    (tg ≠ [] →
      lookupVar (buildVariables o p) "genres" =
        some (.strList (pyUnionSorted (p.genres.getD []) tg)) ∧
      (pyUnionSorted (p.genres.getD []) tg).Nodup ∧
      (∀ x, x ∈ pyUnionSorted (p.genres.getD []) tg ↔
        x ∈ p.genres.getD [] ∨ x ∈ tg) ∧
      List.Pairwise (fun a b => strLe a b = true) (pyUnionSorted (p.genres.getD []) tg)) ∧
    (tt ≠ [] →
      lookupVar (buildVariables o p) "tags" =
        some (.strList (pyUnionSorted (p.tags.getD []) tt)) ∧
      (pyUnionSorted (p.tags.getD []) tt).Nodup ∧
      (∀ x, x ∈ pyUnionSorted (p.tags.getD []) tt ↔
        x ∈ p.tags.getD [] ∨ x ∈ tt) ∧
      List.Pairwise (fun a b => strLe a b = true) (pyUnionSorted (p.tags.getD []) tt)) := by
  have hbv : buildVariables o p =
      (if tt = [] then
        (if tg = [] then preVars p
         else dictSet (preVars p) "genres"
           (.strList (pyUnionSorted (getStrList (preVars p) "genres") tg)))
       else dictSet
        (if tg = [] then preVars p
         else dictSet (preVars p) "genres"
           (.strList (pyUnionSorted (getStrList (preVars p) "genres") tg)))
        "tags"
        (.strList (pyUnionSorted
          (getStrList
            (if tg = [] then preVars p
             else dictSet (preVars p) "genres"
               (.strList (pyUnionSorted (getStrList (preVars p) "genres") tg)))
            "tags") tt))) := by
    simp [buildVariables, hla, hne, hprof]
  have hgtags : getStrList
      (if tg = [] then preVars p
       else dictSet (preVars p) "genres"
         (.strList (pyUnionSorted (getStrList (preVars p) "genres") tg)))
      "tags" = getStrList (preVars p) "tags" := by
    by_cases htg : tg = []
    · simp [htg]
    · simp only [htg, if_neg, ite_false]
      unfold getStrList
      rw [lookupVar_dictSet_ne _ _ _ _ (by decide)]
  constructor
  · intro hg
    refine ⟨?_, pyUnionSorted_nodup _ _, fun x => by
        rw [pyUnionSorted_mem], pyUnionSorted_sorted _ _⟩
    rw [hbv]
    by_cases htt : tt = []
    · simp only [htt, ite_true, if_pos]
      rw [if_neg hg, lookupVar_dictSet_found, getStrList_preVars_genres]
    · rw [if_neg htt, lookupVar_dictSet_ne _ _ _ _ (by decide), if_neg hg,
        lookupVar_dictSet_found, getStrList_preVars_genres]
  · intro ht
    refine ⟨?_, pyUnionSorted_nodup _ _, fun x => by
        rw [pyUnionSorted_mem], pyUnionSorted_sorted _ _⟩
    rw [hbv, if_neg ht, lookupVar_dictSet_found, hgtags, getStrList_preVars_tags]

/-- C10: a blank or whitespace-only string passed as search_term, season,
genre or like_animes is normalized to absent before use, so the tool builds
exactly the same query variables as the same call with the parameter
omitted. -/
theorem blank_string_params_equiv (o : TasteOracles) (a : SearchAnimeToolInput)
    (s : String) (hs : pyStrip s = "") :
    runVariables o { a with search_term := some s } =
      runVariables o { a with search_term := none } ∧
    runVariables o { a with season := some s } =
      runVariables o { a with season := none } ∧
    runVariables o { a with genre := some s } =
      runVariables o { a with genre := none } ∧
    runVariables o { a with like_animes := some s } =
      runVariables o { a with like_animes := none } := by
  refine ⟨?_, ?_, ?_, ?_⟩
  · have hn : normalizeInput { a with search_term := some s } =
        normalizeInput { a with search_term := none } := by
      simp [normalizeInput, blankToNone, hs]
    unfold runVariables validateToolInput
    rw [hn]
  · have hn : normalizeInput { a with season := some s } =
        normalizeInput { a with season := none } := by
      simp [normalizeInput, blankToNone, hs]
    unfold runVariables validateToolInput
    rw [hn]
  · have hn : normalizeInput { a with genre := some s } =
        normalizeInput { a with genre := none } := by
      simp [normalizeInput, blankToNone, hs]
    unfold runVariables validateToolInput
    rw [hn]
  · have hn : normalizeInput { a with like_animes := some s } =
        normalizeInput { a with like_animes := none } := by
      simp [normalizeInput, blankToNone, hs]
    unfold runVariables validateToolInput
    rw [hn]

/-! ## Witnesses -/

/-- C1 witness: the error classes evaluated at concrete outcomes, and the
passthrough of the legacy client at the concrete envelope. -/
theorem anilist_fetch_error_classes_witness :
    fetchFromAnilistTool (.transportError "connection refused") =
      .error ("Network error talking to AniList: " ++ "connection refused") ∧
    fetchFromAnilistTool (.response 500 "oops" c1Body) =
      .error ("AniList query failed (HTTP " ++ toString 500 ++ "): " ++ "oops") ∧
    fetchFromAnilistTool (.response 200 "oops" c1Body) =
      .error ("AniList returned errors: " ++ Json.render (c1Body.getD "errors")) ∧
    fetch_from_anilist (.response 200 "oops" c1Body) = .ok c1Body := by
  have h := anilist_fetch_error_classes "connection refused" "oops" 500 c1Body
  exact ⟨h.1, h.2.1 (by decide), h.2.2.1 rfl, h.2.2.2.2.2 rfl⟩

/-- C2 witness: a per_page of 0 fails the tool schema, an in-range input
passes it, and the extraction schema accepts out-of-range numbers. -/
theorem schema_bounds_validation_witness :
    isOkE (validateToolInput aOutOfRange) = false ∧
    isOkE (validateToolInput aInRange) = true ∧
    isOkE (validateAnimeSearchParams { year := some 3000, per_page := some 0 }) =
      true := by
  have h := schema_bounds_validation
  refine ⟨h.1 aOutOfRange (Or.inl (by decide)), ?_, h.2.2 0 3000⟩
  exact h.2.1 aInRange (by decide) (by decide) (by decide) (by decide) (by decide)

/-- C3 witness: a request with no keyword falls back to the Action genre
criterion, and a genre criterion's query carries the genreOrTag variable. -/
theorem extraction_fallback_heuristic_witness :
    fallback_interpret "show me something good" = Criteria.genre "Action" ∧
    lookupVar (get_anime_by_genre_or_tag_variables "Isekai" 5) "genreOrTag" =
      some (VarValue.str "Isekai") := by
  have h := extraction_fallback_heuristic "show me something good"
  exact ⟨h.1 (by decide) (by decide), h.2 "Isekai" 5⟩

/-- C4 witness: with an oracle resolving no seed, a seed list builds the same
variables as no seed list. -/
theorem unresolved_seeds_contribute_nothing_witness :
    buildVariables oEmpty { pPlain with like_animes := some "Nonexistent Anime" } =
      buildVariables oEmpty { pPlain with like_animes := none } :=
  unresolved_seeds_contribute_nothing oEmpty pPlain "Nonexistent Anime"
    (fun _ _ => Or.inr rfl)

/-- C5 witness: absent parameters leave their keys out of the variables dict
in both clients. -/
theorem null_params_omitted_witness :
    lookupVar (search_anime_variables aDefaults) "search" = none ∧
    lookupVar (buildVariables oEmpty { pPlain with like_animes := none }) "genre" =
      none ∧
    lookupVar (buildVariables oEmpty { pPlain with like_animes := none }) "tags" =
      none := by
  have h1 := null_params_omitted.1 aDefaults
  have h2 := null_params_omitted.2 oEmpty { pPlain with like_animes := none }
  exact ⟨h1.1 rfl, h2.2.2.2.1 rfl, h2.2.2.2.2.2.1 rfl rfl⟩

/-- C6 witness: the taste-expanded genres and tags lists at a concrete
invocation are the sorted duplicate-free unions. -/
theorem taste_union_dedup_sorted_witness :
    lookupVar (buildVariables oTwoGenres pExplicit) "genres" =
      some (VarValue.strList (pyUnionSorted ["Fantasy", "Action"] ["Action", "Comedy"])) ∧
    (pyUnionSorted ["Fantasy", "Action"] ["Action", "Comedy"]).Nodup ∧
    lookupVar (buildVariables oTwoGenres pExplicit) "tags" =
      some (VarValue.strList (pyUnionSorted ["Dark"] ["Dark", "Gore"])) := by
  have h := taste_union_dedup_sorted oTwoGenres pExplicit "X" ["Action", "Comedy"]
    ["Dark", "Gore"] rfl (by decide) rfl
  have hg2 := h.1 (by decide)
  have ht2 := h.2 (by decide)
  exact ⟨hg2.1, hg2.2.1, ht2.1⟩

/-- C7 witness: the hint rating maps to SCORE_DESC, inside the vocabulary. -/
theorem normalize_sort_total_witness :
    normalizeSort "rating" ∈ VALID_SORT_VALUES ∧
    normalizeSort "rating" = "SCORE_DESC" := by
  have h := normalize_sort_total "rating"
  exact ⟨h.1, h.2.2.1 (by decide) "SCORE_DESC" (by decide)⟩

/-- C9 witness: at a concrete candidate list, a surviving record is free of
the excluded title and the result respects the page size. -/
theorem similar_search_excludes_seed_witness :
    (strIn (lowerStr "Naruto") (lowerStr (mediaOther.title.english.getD "")) = false ∧
      strIn (lowerStr "Naruto") (lowerStr (mediaOther.title.romaji.getD "")) = false) ∧
    (get_similar_anime ["Action"] ["Ninja"] [mediaSeedLike, mediaOther]
      "Naruto" 5).length ≤ 5 := by
  have h := similar_search_excludes_seed ["Action"] ["Ninja"]
    [mediaSeedLike, mediaOther] "Naruto" 5 (by decide)
  exact ⟨h.1 mediaOther (by decide), h.2⟩

/-- C10 witness: a single-space parameter builds the same variables as an
omitted one, at a concrete invocation. -/
theorem blank_string_params_equiv_witness :
    runVariables oEmpty { pPlain with search_term := some " " } =
      runVariables oEmpty { pPlain with search_term := none } ∧
    runVariables oEmpty { pPlain with like_animes := some " " } =
      runVariables oEmpty { pPlain with like_animes := none } := by
  have h := blank_string_params_equiv oEmpty pPlain " " rfl
  exact ⟨h.1, h.2.2.2⟩

/-- C3 counterexample: on the request "recommend me something" the fallback is
the genre criterion Action, and the query it executes carries a genreOrTag
filter variable — not the empty filter set of the no-filter popular query. -/
theorem extraction_fallback_not_empty_cex :
    fallback_interpret "recommend me something" = Criteria.genre "Action" ∧
    get_anime_by_genre_or_tag_variables "Action" 5 =
      [("genreOrTag", VarValue.str "Action"), ("perPage", VarValue.int 5)] ∧
    lookupVar (get_anime_by_genre_or_tag_variables "Action" 5) "genreOrTag" ≠ none := by
  refine ⟨by decide, rfl, by decide⟩
